import Mathlib

/-!
# Verification of the Chroma Core Arena combat core

A shallow embedding of the combat/ability resolution engine and the AI
decision layer of the `pvp-project` repository (files `player.js`,
`ai.js`, `game-objects.js`, `main.js`), with theorems settling the
specification claims about damage resolution, status decay, match
outcome arbitration, transient-object lifecycle, skill invocation and
the AI tactical/reflex layers.

JavaScript numbers are modelled as exact rationals (`ℚ`); the few
places where the source normalizes a 3D vector (an inherently
irrational operation) use `ℝ`.  In-place JS mutation is modelled by
explicit state passing; a JS `undefined` field is an `Option` that is
`none`; a thrown `TypeError` is surfaced in an explicit `thrown` field
of the result.
-/

namespace PvPArena

/-- Attack type of a character (`constants.js` `attackType`). -/
inductive AttackType
  | MELEE
  | RANGED
  deriving DecidableEq

/-- The status-effect table of a fighter (`player.js` constructor, lines
63-69).  Every numeric JS field becomes a `ℚ`; `nextAttackVenom` is a JS
boolean; `dashTarget` and `implosionTarger`-style object references are
modelled by presence flags.  The field `gravityMark` (singular, distinct
from `gravityMarks`) models the dynamically created property written by
projectile on-hit effects of the form `{ gravityMark: 1 }`
(`game-objects.js` line 188 writes `p.status[key]` for the literal key
`gravityMark`, which is not the `gravityMarks` counter). -/
structure Status where
  slowed : ℚ
  rooted : ℚ
  silenced : ℚ
  shielded : ℚ
  spellShield : ℚ
  unstoppable : ℚ
  cloaked : ℚ
  empowered : ℚ
  venom : ℚ
  corruption : ℚ
  feedbackLoop : ℚ
  isCharging : ℚ
  riftBuff : ℚ
  targetingArray : ℚ
  parry : ℚ
  siege : ℚ
  gravityMarks : ℚ
  gravityMarkTimer : ℚ
  implosionTimer : ℚ
  gravityMark : ℚ
  nextAttackVenom : Bool
  hasImplosionTarget : Bool
  deriving DecidableEq

/-- Per-skill cooldown timers (`player.js` line 71). -/
structure Cooldowns where
  basicAttack : ℚ
  s1 : ℚ
  s2 : ℚ
  s3 : ℚ
  s4 : ℚ
  deriving DecidableEq

/-- A static skill definition (`constants.js`): name, energy cost,
cooldown seconds and AI tags. -/
structure Skill where
  name : String
  cost : ℚ
  cd : ℚ
  tags : List String
  deriving DecidableEq

/-- The four-skill kit of a character (`constants.js` `skills`). -/
structure SkillBook where
  s1 : Skill
  s2 : Skill
  s3 : Skill
  s4 : Skill
  deriving DecidableEq

/-- JS property lookup `this.skills[skillKey]`: an unknown key yields
`undefined` (`none`). -/
def SkillBook.lookup (sk : SkillBook) : String → Option Skill
  | "s1" => some sk.s1
  | "s2" => some sk.s2
  | "s3" => some sk.s3
  | "s4" => some sk.s4
  | _ => none

/-- JS property lookup `this.cooldowns[skillKey]`. -/
def Cooldowns.lookup (c : Cooldowns) : String → Option ℚ
  | "basicAttack" => some c.basicAttack
  | "s1" => some c.s1
  | "s2" => some c.s2
  | "s3" => some c.s3
  | "s4" => some c.s4
  | _ => none

/-- The JS comparison `x > 0` where `x` may be `undefined`
(`undefined > 0` is `false`). -/
def jsNumGtZero : Option ℚ → Bool
  | some v => decide (0 < v)
  | none => false

/-- The combat-relevant state of one fighter (`player.js` `Player`).
Rendering-only fields (meshes, lights, flash timers) are omitted; the
passive-specific state keeps the fields the modelled passives use
(`firewallTimer`, `resonanceStacks`, `attackSpeedStacks`). -/
structure Player where
  characterKey : String
  passiveName : String
  attackType : AttackType
  hp : ℚ
  maxHp : ℚ
  energy : ℚ
  maxEnergy : ℚ
  speed : ℚ
  attackRange : ℚ
  status : Status
  cooldowns : Cooldowns
  skills : SkillBook
  firewallTimer : ℚ
  resonanceStacks : ℕ
  attackSpeedStacks : ℕ
  position : ℚ × ℚ
  velocity : ℚ × ℚ
  aimDirection : ℚ × ℚ
  isDead : Bool
  deriving DecidableEq

/-- `Player.die` (`player.js` lines 444-490) restricted to its
state-machine content: guarded by the idempotence check, it marks the
fighter dead and freezes health at zero.  (The additional
`gameState === GAME_OVER` guard is vacuous during an active match, which
is the only context in which `die` is reached; all further work in the
source method is visual/audio cleanup.)  Note the return type: `die`
produces only an updated fighter and no match outcome - outcome
arbitration lives in the simulation loop (`main.js`), not here. -/
def die (p : Player) : Player :=
  if p.isDead then p else { p with isDead := true, hp := 0 }

/-- Result of one damage application: the updated target, the root
duration inflicted on the attacker by a successful parry, and whether
the non-DoT hit feedback (floating damage text, hit particles, sound,
damage flash) was emitted. -/
structure DamageResult where
  target : Player
  attackerRootDuration : Option ℚ
  hitFxEmitted : Bool
  deriving DecidableEq

/-- The final, shared step of damage that proceeds past every defensive
check: subtract from health, floor at zero, and transition to dead when
health reaches zero (`player.js` lines 407 and 441). -/
def applyHpLoss (p : Player) (dmg : ℚ) (isDoT : Bool) : DamageResult :=
  let hp2 : ℚ := max 0 (p.hp - dmg)
  let p2 : Player := { p with hp := hp2 }
  if hp2 ≤ 0 then ⟨die p2, none, !isDoT⟩ else ⟨p2, none, !isDoT⟩

/-- `Player.takeDamage(amount, isDoT)` (`player.js` lines 384-442),
translated check by check in source order:
dead no-op; `shielded` status blocks non-DoT; the Firewall passive
blocks a non-DoT hit when its timer is at zero and resets the timer to
20; `spellShield` blocks one non-DoT hit and is set to zero; `parry`
blocks one non-DoT hit, is set to zero and roots the attacker for 1.5 s;
otherwise the damage is multiplied by 1.3 under `corruption`, then by
0.7 under `empowered`, and subtracted from health floored at zero. -/
def takeDamage (p : Player) (amount : ℚ) (isDoT : Bool) : DamageResult :=
  if p.isDead then ⟨p, none, false⟩
  else if 0 < p.status.shielded ∧ isDoT = false then ⟨p, none, false⟩
  else if p.passiveName = "Firewall" ∧ p.firewallTimer ≤ 0 ∧ isDoT = false then
    ⟨{ p with firewallTimer := 20 }, none, false⟩
  else if 0 < p.status.spellShield ∧ isDoT = false then
    ⟨{ p with status.spellShield := 0 }, none, false⟩
  else if 0 < p.status.parry ∧ isDoT = false then
    ⟨{ p with status.parry := 0 }, some (3/2), false⟩
  else
    let dmg0 : ℚ := amount
    let dmg1 : ℚ := if 0 < p.status.corruption then dmg0 * (13/10) else dmg0
    let dmg2 : ℚ := if 0 < p.status.empowered then dmg1 * (7/10) else dmg1
    applyHpLoss p dmg2 isDoT

/-- The defensive layers named by the specification (section 4.2). -/
inductive DefensiveLayer
  | deadTarget
  | shieldStatus
  | blockPassive
  | spellShieldStatus
  | parryStatus
  deriving DecidableEq

/-- Modelled from the spec, section 4.2: the first matching defensive
check ("first match wins").  A dead target blocks everything; every
other layer blocks only instantaneous (non-DoT) damage. -/
def firstBlockingLayer (p : Player) (isDoT : Bool) : Option DefensiveLayer :=
  if p.isDead then some .deadTarget
  else if isDoT then none
  else if 0 < p.status.shielded then some .shieldStatus
  else if p.passiveName = "Firewall" ∧ p.firewallTimer ≤ 0 then some .blockPassive
  else if 0 < p.status.spellShield then some .spellShieldStatus
  else if 0 < p.status.parry then some .parryStatus
  else none

/-- One clamped decay step of a numeric timer:
`v = Math.max(0, v - delta)` (`player.js` lines 223-224). -/
def decayNum (δ v : ℚ) : ℚ := max 0 (v - δ)

/-- The per-tick cooldown decay (`player.js` line 223):
every cooldown is reduced by the elapsed time, floored at zero. -/
def cooldownsDecay (δ : ℚ) (c : Cooldowns) : Cooldowns :=
  { basicAttack := decayNum δ c.basicAttack
    s1 := decayNum δ c.s1
    s2 := decayNum δ c.s2
    s3 := decayNum δ c.s3
    s4 := decayNum δ c.s4 }

/-- The per-tick status decay (`player.js` line 224):
`for (k in status) if (typeof status[k] === 'number')
status[k] = Math.max(0, status[k] - delta)`.  Every numeric field is
decayed - including the `gravityMarks` stack counter, the
`gravityMarkTimer`, the `implosionTimer` and the dynamically created
`gravityMark` property; the boolean and object-reference fields are
skipped by the `typeof` check. -/
def statusNumericDecay (δ : ℚ) (s : Status) : Status :=
  { s with
    slowed := decayNum δ s.slowed
    rooted := decayNum δ s.rooted
    silenced := decayNum δ s.silenced
    shielded := decayNum δ s.shielded
    spellShield := decayNum δ s.spellShield
    unstoppable := decayNum δ s.unstoppable
    cloaked := decayNum δ s.cloaked
    empowered := decayNum δ s.empowered
    venom := decayNum δ s.venom
    corruption := decayNum δ s.corruption
    feedbackLoop := decayNum δ s.feedbackLoop
    isCharging := decayNum δ s.isCharging
    riftBuff := decayNum δ s.riftBuff
    targetingArray := decayNum δ s.targetingArray
    parry := decayNum δ s.parry
    siege := decayNum δ s.siege
    gravityMarks := decayNum δ s.gravityMarks
    gravityMarkTimer := decayNum δ s.gravityMarkTimer
    implosionTimer := decayNum δ s.implosionTimer
    gravityMark := decayNum δ s.gravityMark }

/-- The derived status bookkeeping (`player.js` lines 226-228): after
the decay pass, the gravity-mark stack is reset to zero when its
accompanying timer has reached zero. -/
def statusGravityBookkeeping (s : Status) : Status :=
  if s.gravityMarkTimer ≤ 0 ∧ 0 < s.gravityMarks then
    { s with gravityMarks := 0 }
  else s

/-- The implosion bookkeeping (`player.js` lines 239-249): while the
implosion timer is positive it is decremented by the elapsed time a
second time - without clamping - and when it crosses zero with a stored
implosion target, the implosion fires (30 damage plus a pull impulse,
reported here by the returned flag) and the target reference is
cleared. -/
def statusImplosionStep (δ : ℚ) (s : Status) : Status × Bool :=
  if 0 < s.implosionTimer then
    let t : ℚ := s.implosionTimer - δ
    if t ≤ 0 ∧ s.hasImplosionTarget then
      ({ s with implosionTimer := t, hasImplosionTarget := false }, true)
    else
      ({ s with implosionTimer := t }, false)
  else (s, false)

/-- The full per-tick pass over the status table (`player.js` lines
224-249, status portion): numeric decay, then gravity-mark bookkeeping,
then the implosion-timer step.  The boolean reports whether the
implosion fired on this tick. -/
def statusTickPass (δ : ℚ) (s : Status) : Status × Bool :=
  statusImplosionStep δ (statusGravityBookkeeping (statusNumericDecay δ s))

/-- The status keys that appear as projectile on-hit effects in the
source (`effects: { venom: ... }`, `{ corruption: ... }`,
`{ slowed: ... }`, `{ silenced: ... }`, `{ feedbackLoop: ... }`,
`{ gravityMark: ... }`). -/
inductive StatusKey
  | slowed
  | silenced
  | venom
  | corruption
  | feedbackLoop
  | gravityMark
  deriving DecidableEq

/-- Read one effect key out of the status table. -/
def StatusKey.get (s : Status) : StatusKey → ℚ
  | .slowed => s.slowed
  | .silenced => s.silenced
  | .venom => s.venom
  | .corruption => s.corruption
  | .feedbackLoop => s.feedbackLoop
  | .gravityMark => s.gravityMark

/-- One on-hit effect application (`game-objects.js` lines 186-190):
`p.status[key] = (p.status[key] || 0) + effects[key]` (for an existing
numeric field, `v || 0` is `v` when `v` is nonzero and `0` when it is
zero, hence always `v`). -/
def applyEffect (s : Status) : StatusKey × ℚ → Status
  | (.slowed, v) => { s with slowed := s.slowed + v }
  | (.silenced, v) => { s with silenced := s.silenced + v }
  | (.venom, v) => { s with venom := s.venom + v }
  | (.corruption, v) => { s with corruption := s.corruption + v }
  | (.feedbackLoop, v) => { s with feedbackLoop := s.feedbackLoop + v }
  | (.gravityMark, v) => { s with gravityMark := s.gravityMark + v }

/-- All on-hit effects of a projectile, applied in order. -/
def applyEffects (s : Status) (es : List (StatusKey × ℚ)) : Status :=
  es.foldl applyEffect s

/-- Total amount a list of on-hit effects adds to one status key. -/
def effectSum (k : StatusKey) (es : List (StatusKey × ℚ)) : ℚ :=
  ((es.filter (fun e => e.1 = k)).map (fun e => e.2)).sum

/-- The combat-relevant data of a projectile
(`game-objects.js` `Projectile`): damage, optional on-hit status
effects (`none` models a `null` effects field) and the piercing flag. -/
structure ProjectileM where
  damage : ℚ
  effects : Option (List (StatusKey × ℚ))
  piercing : Bool
  deriving DecidableEq

/-- The body of the projectile-player collision branch
(`game-objects.js` lines 184-191), reached for a live, opposing, not
previously hit fighter whose collider intersects the projectile:
`p.takeDamage(this.damage)` - a non-DoT call - followed by the
unconditional application of the on-hit status effects. -/
def projectileHitPlayer (proj : ProjectileM) (target : Player) : Player :=
  let r := takeDamage target proj.damage false
  match proj.effects with
  | none => r.target
  | some es => { r.target with status := applyEffects r.target.status es }

/-- A transient effect object (`game-objects.js` `SpecialObject`):
lifespan, mark-and-sweep destroyed flag, scene-resource flag, optional
collider and the projectile-blocking flag. -/
structure SObj where
  duration : ℚ
  initialDuration : ℚ
  isDestroyed : Bool
  hasMesh : Bool
  hasCollider : Bool
  blocksProjectiles : Bool
  deriving DecidableEq

/-- `SpecialObject.update` (`game-objects.js` lines 47-50): a destroyed
object returns immediately; otherwise the lifespan ticks down. -/
def SObj.update (δ : ℚ) (o : SObj) : SObj :=
  if o.isDestroyed then o else { o with duration := o.duration - δ }

/-- `SpecialObject.destroy` (`game-objects.js` lines 51-61): guarded by
the destroyed flag; sets the flag and releases the mesh. -/
def SObj.destroy (o : SObj) : SObj :=
  if o.isDestroyed then o else { o with isDestroyed := true, hasMesh := false }

/-- One iteration of the special-object loop in the simulation loop
(`main.js` lines 705-713): destroyed entries are skipped, live entries
are updated, and an expired entry is marked destroyed - the entry is
not removed from the collection here. -/
def sweepStep (δ : ℚ) (o : SObj) : SObj :=
  if o.isDestroyed then o
  else
    let o1 := SObj.update δ o
    if o1.duration ≤ 0 then o1.destroy else o1

/-- The per-entry action and final compaction of the special-object
pass (`main.js` lines 705-717) in isolation, on a tick during which no
fighter dies: each live entry is stepped, destroyed entries are
skipped, and the collection is compacted by the single filter
(`specialObjects = specialObjects.filter(o => !o.isDestroyed)`) after
the iteration.  This deliberately omits the fighter-death path - when
an entry's update kills an aura-carrying fighter, `Player.die` splices
the aura out of the collection mid-iteration; that reachable path is
modelled faithfully by `sweepBody` / `sweepLoopAux` below. -/
def processSpecialObjects (δ : ℚ) (l : List SObj) : List SObj :=
  (l.map (sweepStep δ)).filter (fun o => !o.isDestroyed)

/-- The special objects a projectile's collision scan will consider
(`game-objects.js` lines 201-206): entries marked destroyed are skipped
(`if (o.isDestroyed) continue`), and only entries with a collider can
match. -/
def collisionScanTargets (l : List SObj) : List SObj :=
  l.filter (fun o => !o.isDestroyed && o.hasCollider)

/-- A transient object together with the gameplay behavior its
`update` performs against the fighters - the part `SObj` abstracts
away.  `id` models the JS object identity that `indexOf` compares.  A
damage zone (`StaticField`, `game-objects.js` lines 517-545) carries a
pulse timer, the per-pulse damage and the fighters its radius test
currently hits (the geometry resolved upstream, as elsewhere in this
embedding); a fighter's aura (`PlayerAura`) is an ordinary entry with
no zone behavior - it is the entry `Player.die` splices out. -/
structure WorldObj where
  obj : SObj
  id : ℕ
  isZone : Bool
  damageTimer : ℚ
  damageInterval : ℚ
  pulseDamage : ℚ
  zoneTargets : List ℕ
  deriving DecidableEq

/-- A fighter together with the back-link to its aura entry in the
special-object collection (`player.js` constructor, lines 108-119). -/
structure Combatant where
  player : Player
  auraId : Option ℕ
  deriving DecidableEq

/-- The mutable state the special-object pass iterates over: the live
collection and the fighters. -/
structure SweepState where
  objs : List WorldObj
  fighters : List Combatant
  deriving DecidableEq

/-- The aura block of `Player.die` (`player.js` lines 480-485):
`this.aura.destroy()` followed by
`specialObjects.splice(specialObjects.indexOf(this.aura), 1)` - the
aura is destroyed and then removed directly from the collection,
during whatever iteration over it is currently running. -/
def dieAuraCleanup (objs : List WorldObj) (auraId : ℕ) : List WorldObj :=
  (objs.map (fun w => if w.id = auraId then { w with obj := w.obj.destroy } else w)).eraseP
    (fun w => w.id = auraId)

/-- One zone-pulse hit on one fighter (`StaticField.update`,
`game-objects.js` line 536): a non-DoT `takeDamage` call; when it
kills the fighter, `die` runs - including its aura block, which
splices the fighter's aura out of the collection - and the fighter's
aura reference is cleared. -/
def pulseHitFighter (st : SweepState) (fi : ℕ) (dmg : ℚ) : SweepState :=
  match st.fighters[fi]? with
  | none => st
  | some c =>
      let r := takeDamage c.player dmg false
      let justDied : Bool := r.target.isDead && !c.player.isDead
      let objs1 : List WorldObj :=
        if justDied then
          match c.auraId with
          | some aid => dieAuraCleanup st.objs aid
          | none => st.objs
        else st.objs
      let c1 : Combatant :=
        { player := r.target, auraId := if justDied then none else c.auraId }
      { objs := objs1, fighters := st.fighters.set fi c1 }

/-- The body of the special-object loop at index `i` (`main.js` lines
706-712, with the zone behavior of `StaticField.update` inlined):
destroyed entries are skipped; a live entry's lifespan ticks down; a
zone whose pulse timer fires damages every fighter in radius - which
can kill one and splice its aura out of the very collection being
iterated - and an entry whose lifespan has run out is marked destroyed
in place.  Updates are written back by object identity, as JS in-place
mutation does. -/
def sweepBody (δ : ℚ) (st : SweepState) (i : ℕ) : SweepState :=
  match st.objs[i]? with
  | none => st
  | some w =>
      if w.obj.isDestroyed then st
      else
        let w1 : WorldObj := { w with obj := { w.obj with duration := w.obj.duration - δ } }
        let pulsed : WorldObj × Bool :=
          if w1.isZone then
            let t := w1.damageTimer - δ
            if t ≤ 0 then ({ w1 with damageTimer := w1.damageInterval }, true)
            else ({ w1 with damageTimer := t }, false)
          else (w1, false)
        let w2 := pulsed.1
        let st1 : SweepState :=
          { st with objs := st.objs.map (fun x => if x.id = w.id then w2 else x) }
        let st2 : SweepState :=
          if pulsed.2 then
            w2.zoneTargets.foldl (fun acc fi => pulseHitFighter acc fi w2.pulseDamage) st1
          else st1
        if w2.obj.duration ≤ 0 then
          let objs2 := st2.objs.map
            (fun x => if x.id = w.id then { x with obj := x.obj.destroy } else x)
          { st2 with objs := objs2 }
        else st2

/-- The index loop of the special-object pass (`main.js` lines
705-713): `for (let i = 0; i < specialObjects.length; i++)` - the
`i < length` test reads the collection's current length, which the
body may have shrunk through a kill's aura splice.  The fuel starts at
the initial length: `i` grows by one per iteration and this model's
body never grows the collection, so the loop always finishes within
that many iterations. -/
def sweepLoopAux (δ : ℚ) : ℕ → ℕ → SweepState → SweepState
  | 0, _, st => st
  | fuel + 1, i, st =>
      if i < st.objs.length then sweepLoopAux δ fuel (i + 1) (sweepBody δ st i)
      else st

/-- One full per-tick handling of the collection (`main.js` lines
705-717): the index loop, then the compaction filter. -/
def sweepTick (δ : ℚ) (st : SweepState) : SweepState :=
  let looped := sweepLoopAux δ st.objs.length 0 st
  { looped with objs := looped.objs.filter (fun w => !w.obj.isDestroyed) }

/-- A match outcome as passed to `endGame` (`main.js`): `draw` is
`endGame(0)`, `p1Wins` is `endGame(1)`, `p2Wins` is `endGame(2)`. -/
inductive Outcome
  | draw
  | p1Wins
  | p2Wins
  deriving DecidableEq

/-- The per-tick match state seen by the outcome check of the
simulation loop. -/
structure MatchState where
  p1 : Player
  p2 : Player
  gameEnded : Bool
  deriving DecidableEq

/-- Result of the once-per-tick outcome arbitration. -/
structure FrameCheckResult where
  p1 : Player
  p2 : Player
  outcome : Option Outcome
  deriving DecidableEq

/-- The once-per-tick death detection and outcome arbitration of the
simulation loop (`main.js` lines 673-689): each fighter whose health
has reached zero and is not yet dead is transitioned through `die`;
then a single arbitration declares a draw when both are dead, and a
winner only when exactly one is dead.  Nothing else in the codebase
declares an outcome from gameplay. -/
def frameDeathCheck (s : MatchState) : FrameCheckResult :=
  if s.gameEnded then ⟨s.p1, s.p2, none⟩
  else
    let p1 := if s.p1.isDead = false ∧ s.p1.hp ≤ 0 then die s.p1 else s.p1
    let p2 := if s.p2.isDead = false ∧ s.p2.hp ≤ 0 then die s.p2 else s.p2
    let outcome : Option Outcome :=
      if p1.isDead ∧ p2.isDead then some .draw
      else if p1.isDead then some .p2Wins
      else if p2.isDead then some .p1Wins
      else none
    ⟨p1, p2, outcome⟩

/-- The health/energy-mutating operations of the combat core, from the
caller's fighter's point of view:
damage (`Player.takeDamage`, both instantaneous and DoT);
the Fortress passive heal `hp = min(maxHp, hp + 20)` (`player.js` 155);
the Salvation heal `hp = min(maxHp, hp + 70)` (`player.js` 803);
energy regeneration `energy = min(maxEnergy, energy + rate*delta)`
(`player.js` 253);
the Mana Burn drain `energy = max(0, energy - 5)` (`player.js` 610);
the System Crash drain `energy = 0` (`player.js` 800);
the Energy Void drain `energy -= energy * 0.6` and the matching gain
`energy = min(maxEnergy, energy + drain)` (`player.js` 805);
the Overcharge restore `energy = min(maxEnergy, energy + 50)`
(`player.js` 795);
and the guarded skill-cost deduction
`if (energy < cost) return; energy -= cost` (`player.js` 656-657). -/
inductive FighterOp
  | damage (amount : ℚ) (isDoT : Bool)
  | fortressHeal
  | salvationHeal
  | energyRegen (rate δ : ℚ)
  | manaBurnDrain
  | systemCrashDrain
  | energyVoidDrain
  | energyVoidGain (drain : ℚ)
  | overchargeRestore
  | skillCost (cost : ℚ)

/-- Apply one fighter operation, exactly as the source does. -/
def applyOp (p : Player) : FighterOp → Player
  | .damage a d => (takeDamage p a d).target
  | .fortressHeal => { p with hp := min p.maxHp (p.hp + 20) }
  | .salvationHeal =>
      if p.hp < p.maxHp then { p with hp := min p.maxHp (p.hp + 70) } else p
  | .energyRegen rate δ => { p with energy := min p.maxEnergy (p.energy + rate * δ) }
  | .manaBurnDrain => { p with energy := max 0 (p.energy - 5) }
  | .systemCrashDrain => { p with energy := 0 }
  | .energyVoidDrain => { p with energy := p.energy - p.energy * (3/5) }
  | .energyVoidGain drain => { p with energy := min p.maxEnergy (p.energy + drain) }
  | .overchargeRestore => { p with energy := min p.maxEnergy (p.energy + 50) }
  | .skillCost cost => if p.energy < cost then p else { p with energy := p.energy - cost }

/-- The side conditions under which the source performs each operation:
damage amounts, regeneration rates, elapsed times, drained amounts and
skill costs are never negative at any call site. -/
def opOk : FighterOp → Prop
  | .damage a _ => 0 ≤ a
  | .energyRegen rate δ => 0 ≤ rate ∧ 0 ≤ δ
  | .energyVoidGain drain => 0 ≤ drain
  | .skillCost cost => 0 ≤ cost
  | _ => True

/-- The resource invariant of the data model (spec section 3): health in
`[0, maxHealth]`, energy in `[0, maxEnergy]`. -/
def ResourceInv (p : Player) : Prop :=
  0 ≤ p.hp ∧ p.hp ≤ p.maxHp ∧ 0 ≤ p.energy ∧ p.energy ≤ p.maxEnergy

/-- Modelled from the spec, section 4.2: the reference
`applyDamage(target, amount, isDamageOverTime)` definition.  The first
matching layer fully blocks (consuming spell shield / parry, resetting
the block passive's cooldown, rooting the attacker on parry); otherwise
the damage is multiplied by 1.3 if corrupted and then by 0.7 if
empowered (sequential multiplication) and subtracted from health,
floored at zero. -/
def applyDamageSpec (p : Player) (amount : ℚ) (isDoT : Bool) : DamageResult :=
  match firstBlockingLayer p isDoT with
  | some .deadTarget => ⟨p, none, false⟩
  | some .shieldStatus => ⟨p, none, false⟩
  | some .blockPassive => ⟨{ p with firewallTimer := 20 }, none, false⟩
  | some .spellShieldStatus => ⟨{ p with status.spellShield := 0 }, none, false⟩
  | some .parryStatus => ⟨{ p with status.parry := 0 }, some (3/2), false⟩
  | none =>
    let dmg : ℚ := amount * (if 0 < p.status.corruption then 13/10 else 1)
                          * (if 0 < p.status.empowered then 7/10 else 1)
    applyHpLoss p dmg isDoT

/-- Planar vector addition (the y component is fixed in the arena). -/
def vaddQ (a b : ℚ × ℚ) : ℚ × ℚ := (a.1 + b.1, a.2 + b.2)

/-- Scale a planar vector. -/
def vscaleQ (c : ℚ) (v : ℚ × ℚ) : ℚ × ℚ := (c * v.1, c * v.2)

/-- Planar dot product. -/
def dotQ (a b : ℚ × ℚ) : ℚ := a.1 * b.1 + a.2 * b.2

/-- Squared planar length. -/
def normSqQ (v : ℚ × ℚ) : ℚ := v.1 * v.1 + v.2 * v.2

/-- `a.distanceTo(b) < r`, in square-free exact form:
for the nonnegative distance this is `0 < r` and `dist^2 < r^2`. -/
def distLtQ (a b : ℚ × ℚ) (r : ℚ) : Bool :=
  decide (0 < r ∧ normSqQ (a.1 - b.1, a.2 - b.2) < r * r)

/-- The melee facing check `aimDirection.dot(normalize(v)) > 0.5`
(`player.js` lines 638-640), in square-free exact form: for a unit
`aim` and nonzero `v` this is `0 < aim ⬝ v` and `4 (aim ⬝ v)^2 > ‖v‖^2`;
for `v = 0` the source compares `0 > 0.5`, also `false` here. -/
def forwardCheckQ (aim v : ℚ × ℚ) : Bool :=
  decide (0 < dotQ aim v ∧ normSqQ v < 4 * dotQ aim v * dotQ aim v)

/-- A request to create a transient world object, emitted by skill
execution (`projectiles.push(new Projectile(...))` /
`specialObjects.push(new ...)`). -/
inductive Spawn
  | projectile (damage speed : ℚ) (effects : Option (List (StatusKey × ℚ))) (piercing : Bool)
  | visual (kind : String)
  deriving DecidableEq

/-- JS assignment `this.cooldowns[skillKey] = v` for the five skill
keys of the cooldown map. -/
def Cooldowns.set (c : Cooldowns) (k : String) (v : ℚ) : Cooldowns :=
  if k = "basicAttack" then { c with basicAttack := v }
  else if k = "s1" then { c with s1 := v }
  else if k = "s2" then { c with s2 := v }
  else if k = "s3" then { c with s3 := v }
  else if k = "s4" then { c with s4 := v }
  else c

/-- JS compound assignment `this.cooldowns[skillKey] *= f`. -/
def Cooldowns.scale (c : Cooldowns) (k : String) (f : ℚ) : Cooldowns :=
  if k = "basicAttack" then { c with basicAttack := c.basicAttack * f }
  else if k = "s1" then { c with s1 := c.s1 * f }
  else if k = "s2" then { c with s2 := c.s2 * f }
  else if k = "s3" then { c with s3 := c.s3 * f }
  else if k = "s4" then { c with s4 := c.s4 * f }
  else c

/-- `Player.applyPassiveCooldown` (`player.js` lines 561-566): the Time
Flux passive multiplies the just-set cooldown of a non-basic skill by
0.95. -/
def applyPassiveCooldown (p : Player) (k : String) : Player :=
  if p.passiveName = "Time Flux" ∧ k ≠ "basicAttack" then
    { p with cooldowns := p.cooldowns.scale k (19/20) }
  else p

/-- `Object.assign(opponent.status, effects)` (`player.js` line 642):
melee on-hit effects overwrite the status fields (unlike the projectile
path, which adds). -/
def assignEffect (s : Status) : StatusKey × ℚ → Status
  | (.slowed, v) => { s with slowed := v }
  | (.silenced, v) => { s with silenced := v }
  | (.venom, v) => { s with venom := v }
  | (.corruption, v) => { s with corruption := v }
  | (.feedbackLoop, v) => { s with feedbackLoop := v }
  | (.gravityMark, v) => { s with gravityMark := v }

/-- Fold of `assignEffect` over an effect object. -/
def assignEffects (s : Status) (es : List (StatusKey × ℚ)) : Status :=
  es.foldl assignEffect s

/-- Result of a skill invocation: the caster, the (possibly affected)
opponent, and the transient objects spawned. -/
structure SkillOutcome where
  self : Player
  opponent : Option Player
  spawns : List Spawn
  deriving DecidableEq

/-- The basic-attack cooldown `(siege ? 1.5 : 0.5) / atkSpeed`
(`player.js` lines 586-590); the attack-speed stacks only exist on the
Emperor (`MIRAGE`). -/
def basicAttackCooldown (p : Player) : ℚ :=
  let atkSpeed : ℚ :=
    if p.characterKey = "MIRAGE" then 1 + (p.attackSpeedStacks : ℚ) / 5 else 1
  (if 0 < p.status.siege then (3 : ℚ)/2 else 1/2) / atkSpeed

/-- The basic-attack branch of `Player.executeSkill`
(`player.js` lines 584-648) for a locally driven fighter
(`isRemote = false`): set the attack cooldown, run the on-basic-attack
passives of the modelled roster (Resonance, Mana Burn, Event Horizon -
the Shadowstrike, Way of the Blade and Sharpshooter branches apply only
to passives outside the modelled roster), then either spawn a ranged
projectile (carrying a venom effect if `nextAttackVenom` was armed, and
piercing under `targetingArray`), or resolve a melee hit against an
opponent in range and in front. -/
def executeBasicAttack (p : Player) (opp : Option Player) : SkillOutcome :=
  let p1 : Player := { p with cooldowns := p.cooldowns.set "basicAttack" (basicAttackCooldown p) }
  let p1 : Player := applyPassiveCooldown p1 "basicAttack"
  let resonance : Player × ℚ :=
    if p1.passiveName = "Resonance" then
      let newStacks := (p1.resonanceStacks + 1) % 3
      if newStacks = 0 then
        ({ p1 with resonanceStacks := newStacks,
                   energy := min p1.maxEnergy (p1.energy + 10) }, 15)
      else ({ p1 with resonanceStacks := newStacks }, 0)
    else (p1, 0)
  let p2 := resonance.1
  let bonusDamage := resonance.2
  let opp1 : Option Player :=
    match opp with
    | none => none
    | some o =>
        if p2.passiveName = "Mana Burn" then
          some { o with energy := max 0 (o.energy - 5) }
        else if p2.passiveName = "Event Horizon" then
          some { o with status :=
            { o.status with gravityMarks := o.status.gravityMarks + 1,
                            gravityMarkTimer := 4 } }
        else some o
  let damage : ℚ := (if 0 < p2.status.siege then 25 else 10) + bonusDamage
  let fx : Option (List (StatusKey × ℚ)) :=
    if p2.status.nextAttackVenom then some [(.venom, 3)] else none
  let p3 : Player :=
    if p2.status.nextAttackVenom then
      { p2 with status := { p2.status with nextAttackVenom := false } }
    else p2
  match p3.attackType with
  | .RANGED =>
      let piercing := 0 < p3.status.targetingArray
      ⟨p3, opp1, [Spawn.projectile damage 20 fx (decide piercing)]⟩
  | .MELEE =>
      let opp2 : Option Player :=
        match opp1 with
        | none => none
        | some o =>
            if o.isDead = false ∧
               distLtQ o.position p3.position (p3.attackRange + 0) = true ∧
               forwardCheckQ p3.aimDirection
                 (o.position.1 - p3.position.1, o.position.2 - p3.position.2) = true then
              let o1 := (takeDamage o damage false).target
              some (match fx with
                    | none => o1
                    | some es => { o1 with status := assignEffects o1.status es })
            else some o
      ⟨p3, opp2, [Spawn.visual "MeleeSlash"]⟩

/-- The per-skill effect switch of `Player.executeSkill`
(`player.js` lines 673-839), for the skills of the modelled roster; a
skill name outside the switch changes nothing beyond the already paid
cost and cooldown, exactly like a missed `switch` case in the source. -/
def skillEffectSwitch (p : Player) (opp : Option Player) (skillName : String) : SkillOutcome :=
  if skillName = "Power Shot" then ⟨p, opp, [Spawn.projectile 25 25 none false]⟩
  else if skillName = "Phase Shift" then
    ⟨{ p with velocity := vaddQ p.velocity (vscaleQ 20 p.aimDirection) }, opp,
      [Spawn.visual "ParticleSystem"]⟩
  else if skillName = "Static Field" then ⟨p, opp, [Spawn.visual "StaticField"]⟩
  else if skillName = "Overcharge" then
    ⟨{ p with status := { p.status with empowered := 8 },
              energy := min p.maxEnergy (p.energy + 50) }, opp,
      [Spawn.visual "StatusAura"]⟩
  else if skillName = "Empower" then
    ⟨{ p with status := { p.status with empowered := 6 } }, opp, [Spawn.visual "StatusAura"]⟩
  else if skillName = "Sentry Turret" ∨ skillName = "Build Turret" then
    ⟨p, opp, [Spawn.visual "SentryTurret"]⟩
  else if skillName = "Bastion Protocol" then
    ⟨{ p with status := { p.status with shielded := 10 } }, opp, [Spawn.visual "ShieldEffect"]⟩
  else if skillName = "Salvation" then
    ⟨(if p.hp < p.maxHp then { p with hp := min p.maxHp (p.hp + 70) } else p), opp,
      [Spawn.visual "ExpandingRing"]⟩
  else if skillName = "Energy Shield" then
    ⟨{ p with status := { p.status with shielded := 5 } }, opp, [Spawn.visual "ShieldEffect"]⟩
  else if skillName = "Spell Shield" then
    ⟨{ p with status := { p.status with spellShield := 10 } }, opp, [Spawn.visual "ShieldEffect"]⟩
  else if skillName = "Parry Stance" then
    ⟨{ p with status := { p.status with parry := 3/2 } }, opp, [Spawn.visual "ShieldEffect"]⟩
  else if skillName = "Silence" then
    ⟨p, opp, [Spawn.projectile 10 20 (some [(.silenced, 3)]) false]⟩
  else if skillName = "Corruption" then
    ⟨p, opp, [Spawn.projectile 5 20 (some [(.corruption, 5)]) false]⟩
  else if skillName = "Venom Blade" then
    ⟨{ p with status := { p.status with nextAttackVenom := true } }, opp,
      [Spawn.visual "StatusAura"]⟩
  else ⟨p, opp, []⟩

/-- `Player.executeSkill(skillKey)` (`player.js` lines 568-840) for a
locally driven fighter: a dead fighter returns immediately; the basic
attack takes its own branch; any other known skill re-checks the energy
cost, pays it, sets the cooldown (with the Time Flux reduction), and
runs its effect switch. -/
def executeSkill (p : Player) (opp : Option Player) (k : String) : SkillOutcome :=
  if p.isDead then ⟨p, opp, []⟩
  else if k = "basicAttack" then executeBasicAttack p opp
  else
    match p.skills.lookup k with
    | none => ⟨p, opp, []⟩
    | some skill =>
        if p.energy < skill.cost then ⟨p, opp, []⟩
        else
          let p1 : Player := { p with energy := p.energy - skill.cost,
                                      cooldowns := p.cooldowns.set k skill.cd }
          let p2 : Player := applyPassiveCooldown p1 k
          skillEffectSwitch p2 opp skill.name

/-- The skill object `useSkill` resolves for a key (`player.js` line
544): the basic attack gets a synthetic zero-cost entry, the rest come
from the kit; an unknown key resolves to `undefined`. -/
def skillRequested (p : Player) (k : String) : Option Skill :=
  if k = "basicAttack" then
    some ⟨"basicAttack", 0, (if 0 < p.status.siege then (3 : ℚ)/2 else 1/2), []⟩
  else p.skills.lookup k

/-- `Player.useSkill(skillKey)` (`player.js` lines 541-553): the
invalid-invocation guards - dead, on cooldown (a JS `undefined > 0`
comparison for an unknown key), silenced, unknown skill key,
insufficient energy - all return silently; a valid invocation executes
the skill.  (The network event push is skipped: it applies only to
online human fighters.) -/
def useSkill (p : Player) (opp : Option Player) (k : String) : SkillOutcome :=
  if p.isDead = true ∨ jsNumGtZero (p.cooldowns.lookup k) = true ∨ 0 < p.status.silenced then
    ⟨p, opp, []⟩
  else
    match skillRequested p k with
    | none => ⟨p, opp, []⟩
    | some skill =>
        if p.energy < skill.cost then ⟨p, opp, []⟩
        else executeSkill p opp k

/-- Result of a scheduled reflex-dodge callback: the fighter, the
opponent, the skill invocations issued and the spawned objects. -/
structure DodgeOutcome where
  self : Player
  opponent : Option Player
  skillCalls : List String
  spawns : List Spawn
  deriving DecidableEq

/-- The delayed reflex-dodge callback scheduled by the AI survival
brain (`ai.js` lines 138-152): it first re-checks `ai.isDead` and
becomes a no-op for a fighter that died during the reaction latency;
otherwise Echo Prime spends Phase Shift as the dodge (aiming along the
escape path) when it is off cooldown and affordable, and any other case
sets the velocity to the escape path at 1.8 times the fighter's
speed. -/
def reflexDodgeCallback (ai : Player) (opp : Option Player) (bestEscapePath : ℚ × ℚ) :
    DodgeOutcome :=
  if ai.isDead then ⟨ai, opp, [], []⟩
  else if ai.characterKey = "ECHO_PRIME" ∧ ai.cooldowns.s2 ≤ 0 ∧
          ai.skills.s2.cost ≤ ai.energy then
    let ai1 : Player := { ai with aimDirection := bestEscapePath }
    let r := useSkill ai1 opp "s2"
    ⟨r.self, r.opponent, ["s2"], r.spawns⟩
  else
    ⟨{ ai with velocity := vscaleQ (ai.speed * (9/5)) bestEscapePath }, opp, [], []⟩

/-- The movement strategies of the AI state machine (`ai.js`). -/
inductive Strategy
  | IDLE
  | DODGING
  | REPOSITION
  | KITE
  | CHASE
  | WAITING
  | DEFEND_TURRET
  | RETREAT_TO_CAST
  deriving DecidableEq

/-- The mutable AI state (`player.js` lines 96-100).  The constructor
initializes only `decisionTimer`, `strategy` and `dodgeCooldown`;
`repositionTarget` is a property that is never initialized anywhere, so
it starts as JS `undefined`, modelled by `none`. -/
structure AiState where
  decisionTimer : ℚ
  strategy : Strategy
  dodgeCooldown : ℚ
  repositionTarget : Option (ℝ × ℝ)

/-- The AI state exactly as built by the `Player` constructor
(`player.js` lines 96-100): note the absence of any `repositionTarget`
initialization. -/
def initialAiState : AiState :=
  { decisionTimer := 0, strategy := Strategy.IDLE, dodgeCooldown := 0,
    repositionTarget := none }

/-- One AI tier configuration (`ai.js` `AI_TIERS`). -/
structure AiConfig where
  decisionInterval : ℚ
  energyManagement : ℚ
  engagementRange : ℚ
  retreatHealth : ℚ
  aimLag : ℚ
  dodgeChance : ℚ
  dodgeReaction : ℚ
  deriving DecidableEq

/-- The `Devil` tier (`ai.js` lines 78-90). -/
def devilTier : AiConfig :=
  { decisionInterval := 0, energyManagement := 75, engagementRange := 30,
    retreatHealth := 1/2, aimLag := 0, dodgeChance := 1, dodgeReaction := 0 }

/-- A JS runtime exception escaping the AI brain. -/
inductive JsError
  | typeError (msg : String)
  | referenceError (msg : String)
  deriving DecidableEq

/-- The shared situational analysis consumed by the tactical brain
(`ai.js` `situationalAnalysis`): the AI-to-opponent distance and the
obstacle line-of-sight verdict (both computed geometrically upstream). -/
structure Analysis where
  dist : ℚ
  isPathBlocked : Bool
  deriving DecidableEq

/-- `v.applyAxisAngle((0,1,0), π/2)` on a planar `(x, z)` vector:
`(x, z) ↦ (z, -x)`. -/
def rotY90 (v : ℝ × ℝ) : ℝ × ℝ := (v.2, -v.1)

/-- `THREE.Vector3.normalize`: divide by the length when it is nonzero
(`divideScalar(length || 1)` leaves the zero vector unchanged). -/
noncomputable def threeNormalize (v : ℝ × ℝ) : ℝ × ℝ :=
  let len := Real.sqrt (v.1 ^ 2 + v.2 ^ 2)
  if len = 0 then v else (v.1 / len, v.2 / len)

/-- The flank direction computed by the blocked-line-of-sight branch
(`ai.js` line 327): the AI-to-opponent bearing rotated 90 degrees
around the vertical axis and normalized. -/
noncomputable def flankDirOf (aiPos oppPos : ℝ × ℝ) : ℝ × ℝ :=
  threeNormalize (rotY90 (oppPos.1 - aiPos.1, oppPos.2 - aiPos.2))

/-- `calculateEchoPrimeScore` (`ai.js` lines 486-512). -/
def echoPrimeScore (ai : Player) (k : String) (oppHp oppMaxHp dist : ℚ) : ℚ :=
  if k = "s1" then (if dist < 8 then -50 else 70)
  else if k = "s2" then 0
  else if k = "s3" then (if dist < 6 then 80 else 0)
  else if k = "s4" then
    (if oppHp / oppMaxHp < 3/5 then 200
     else if ai.hp / ai.maxHp < 3/10 then -50
     else 10)
  else if k = "basicAttack" then (if dist < 15 then 10 else 0)
  else 0

/-- The per-skill utility score (`ai.js` lines 454-469): the mastery
brain for Echo Prime, the generic fallback otherwise, plus the global
finisher bonus on damaging skills against a low-health opponent. -/
def skillScore (ai : Player) (k : String) (skill : Skill) (oppHp oppMaxHp dist : ℚ) : ℚ :=
  let base : ℚ :=
    if ai.characterKey = "ECHO_PRIME" then echoPrimeScore ai k oppHp oppMaxHp dist
    else if k = "basicAttack" then 10
    else if skill.tags.contains "damage" then 15
    else 0
  if oppHp < 20 ∧ skill.tags.contains "damage" then base + 200 else base

/-- The candidate skill object the offense scorer builds for a key
(`ai.js` line 443): the basic attack gets a synthetic zero-cost
`damage`-tagged entry, the rest come from the kit. -/
def offensiveSkillCandidate (ai : Player) (k : String) : Option Skill :=
  if k = "basicAttack" then some ⟨"basicAttack", 0, 0, ["damage"]⟩
  else ai.skills.lookup k

/-- `findBestOffensiveSkill` (`ai.js` lines 437-478): walk the five
keys in order, discard candidates that are on cooldown, unaffordable,
or would dip below the tier's reserved energy, score the rest, and keep
the first strictly-highest scorer above zero. -/
def findBestOffensiveSkill (ai : Player) (oppHp oppMaxHp dist : ℚ) (config : AiConfig) :
    Option String :=
  let step : Option String × ℚ → String → Option String × ℚ := fun acc k =>
    match offensiveSkillCandidate ai k with
    | none => acc
    | some skill =>
        if jsNumGtZero (ai.cooldowns.lookup k) = true then acc
        else if ai.energy < skill.cost then acc
        else if ai.energy - skill.cost < config.energyManagement / 100 * ai.maxEnergy then acc
        else
          let score := skillScore ai k skill oppHp oppMaxHp dist
          if acc.2 < score then (some k, score) else acc
  (["s1", "s2", "s3", "s4", "basicAttack"].foldl step (none, 0)).1

/-- Result of one tactical decision: the fighter and opponent, the new
AI state, the skill invocations issued, the spawned objects, and the
JS exception, if the decision threw one. -/
structure TacticalResult where
  ai : Player
  opponent : Option Player
  aiState : AiState
  skillCalls : List String
  spawns : List Spawn
  thrown : Option JsError

/-- `runTacticalBrain` (`ai.js` lines 317-351).  Blocked line of sight:
the strategy is set to `REPOSITION` and the flank direction is
computed, but the next statement reads `.copy` on
`ai.aiState.repositionTarget` - a property no code ever initializes -
so the first blocked decision throws a `TypeError` before storing any
flank point (were the property a vector, it would receive the point
offset 90 degrees around the opponent at distance 10).  Clear line of
sight: the best offensive skill is scored and invoked, the Oracle
branches dereference the module-global `specialObjects` that `ai.js`
never imports (a `ReferenceError`), and with no skill above zero the
archetype-default movement strategy is chosen. -/
noncomputable def runTacticalBrain (ai : Player) (opp : Player) (st : AiState)
    (config : AiConfig) (anal : Analysis) : TacticalResult :=
  if anal.isPathBlocked then
    let st1 : AiState := { st with strategy := Strategy.REPOSITION }
    let aiPosR : ℝ × ℝ := ((ai.position.1 : ℝ), (ai.position.2 : ℝ))
    let oppPosR : ℝ × ℝ := ((opp.position.1 : ℝ), (opp.position.2 : ℝ))
    let flankDir := flankDirOf aiPosR oppPosR
    match st1.repositionTarget with
    | none =>
        ⟨ai, some opp, st1, [], [],
          some (JsError.typeError "Cannot read properties of undefined (reading copy)")⟩
    | some _ =>
        let tgt : ℝ × ℝ := (oppPosR.1 + 10 * flankDir.1, oppPosR.2 + 10 * flankDir.2)
        ⟨ai, some opp, { st1 with repositionTarget := some tgt }, [], [], none⟩
  else if ai.characterKey = "ORACLE" then
    ⟨ai, some opp, st, [], [],
      some (JsError.referenceError "specialObjects is not defined")⟩
  else
    match findBestOffensiveSkill ai opp.hp opp.maxHp anal.dist config with
    | some key =>
        let r := useSkill ai (some opp) key
        ⟨r.self, r.opponent, { st with strategy := Strategy.WAITING }, [key], r.spawns, none⟩
    | none =>
        let strat : Strategy :=
          if ai.characterKey = "ECHO_PRIME" then Strategy.KITE
          else if ai.attackType = AttackType.RANGED then Strategy.KITE
          else Strategy.CHASE
        ⟨ai, some opp, { st with strategy := strat }, [], [], none⟩

/-- The `REPOSITION` case of `executeMovement` (`ai.js` lines
393-400): `move.subVectors(repositionTarget, ai.mesh.position)` - with
the never-initialized `repositionTarget` this reads `.x` of `undefined`
and throws; with a stored target it yields the movement vector toward
the flank point. -/
noncomputable def executeMovementRepositionMove (ai : Player) (st : AiState) :
    Except JsError (ℝ × ℝ) :=
  match st.repositionTarget with
  | none => Except.error (JsError.typeError "Cannot read properties of undefined (reading x)")
  | some t => Except.ok (t.1 - (ai.position.1 : ℝ), t.2 - (ai.position.2 : ℝ))

/-- The all-zero status table built by the `Player` constructor
(`player.js` lines 63-69). -/
def zeroStatus : Status :=
  { slowed := 0, rooted := 0, silenced := 0, shielded := 0, spellShield := 0,
    unstoppable := 0, cloaked := 0, empowered := 0, venom := 0, corruption := 0,
    feedbackLoop := 0, isCharging := 0, riftBuff := 0, targetingArray := 0,
    parry := 0, siege := 0, gravityMarks := 0, gravityMarkTimer := 0,
    implosionTimer := 0, gravityMark := 0, nextAttackVenom := false,
    hasImplosionTarget := false }

/-- All cooldowns ready (`player.js` line 71). -/
def zeroCooldowns : Cooldowns :=
  { basicAttack := 0, s1 := 0, s2 := 0, s3 := 0, s4 := 0 }

/-- The Echo Prime kit (`constants.js`). -/
def echoPrimeSkills : SkillBook :=
  { s1 := { name := "Power Shot", cost := 25, cd := 4, tags := ["damage", "projectile", "combo"] }
    s2 := { name := "Phase Shift", cost := 30, cd := 5, tags := ["mobility", "escape"] }
    s3 := { name := "Static Field", cost := 50, cd := 12, tags := ["damage", "aoe", "zone"] }
    s4 := { name := "Overcharge", cost := 80, cd := 40, tags := ["buff", "damage", "utility", "ultimate"] } }

/-- A freshly constructed Echo Prime fighter (`constants.js` data,
`player.js` constructor). -/
def echoPrime : Player :=
  { characterKey := "ECHO_PRIME", passiveName := "Resonance",
    attackType := AttackType.RANGED, hp := 100, maxHp := 100, energy := 100,
    maxEnergy := 100, speed := 8, attackRange := 0, status := zeroStatus,
    cooldowns := zeroCooldowns, skills := echoPrimeSkills, firewallTimer := 20,
    resonanceStacks := 0, attackSpeedStacks := 0, position := (-15, 0),
    velocity := (0, 0), aimDirection := (1, 0), isDead := false }

/-- A status table with a sample of active effects, used to evaluate
the decay pass at a concrete input. -/
def sampleStatus : Status :=
  { zeroStatus with
    slowed := 2
    rooted := 1/4
    silenced := 3
    shielded := 5
    spellShield := 10
    empowered := 6
    venom := 3/2
    corruption := 5
    gravityMarks := 2
    gravityMarkTimer := 4
    implosionTimer := 3 }

/-- Sample cooldown timers mid-match. -/
def sampleCooldowns : Cooldowns :=
  { basicAttack := 1/2, s1 := 4, s2 := 0, s3 := 23/2, s4 := 40 }

/-- The status table of the C2 counterexample: one gravity mark whose
timer is still far from expiring, and an implosion pending in 0.6 s. -/
def gravityMarkedStatus : Status :=
  { zeroStatus with
    gravityMarks := 1
    gravityMarkTimer := 4
    implosionTimer := 3/5
    hasImplosionTarget := true }

/-- A situational analysis reporting the line of sight blocked by an
obstacle at distance 10. -/
def blockedAnalysis : Analysis := { dist := 10, isPathBlocked := true }

/-- A tick on which both fighters have just reached zero health, with
the match still running. -/
def bothAtZero : MatchState :=
  { p1 := { echoPrime with hp := 0 }
    p2 := { echoPrime with hp := 0 }
    gameEnded := false }

/-- An expired, already-destroyed ring effect. -/
def deadRingFx : SObj :=
  { duration := 0, initialDuration := 1, isDestroyed := true, hasMesh := false,
    hasCollider := true, blocksProjectiles := false }

/-- A live wall effect with 2 s of lifespan left. -/
def liveWallFx : SObj :=
  { duration := 2, initialDuration := 5, isDestroyed := false, hasMesh := true,
    hasCollider := true, blocksProjectiles := true }

/-- A sample mid-match sequence of resource operations: a blockable
hit, a DoT tick, each heal, regeneration, a skill cost, every drain and
every restore. -/
def sampleOps : List FighterOp :=
  [FighterOp.damage 30 false, FighterOp.damage 5 true, FighterOp.fortressHeal,
   FighterOp.energyRegen 5 (1/60), FighterOp.skillCost 25, FighterOp.manaBurnDrain,
   FighterOp.energyVoidDrain, FighterOp.overchargeRestore, FighterOp.salvationHeal,
   FighterOp.systemCrashDrain, FighterOp.energyVoidGain 12]

/-- Echo Prime under a 2 s silence. -/
def silencedEcho : Player :=
  { echoPrime with status := { zeroStatus with silenced := 2 } }

/-- A dead Echo Prime. -/
def deadEcho : Player := { echoPrime with isDead := true, hp := 0 }

/-- Echo Prime under a 5 s shield status. -/
def shieldedEcho : Player :=
  { echoPrime with status := { zeroStatus with shielded := 5 } }

/-- A projectile carrying venom and slow on-hit effects. -/
def venomSlowProjectile : ProjectileM :=
  { damage := 15, effects := some [(StatusKey.venom, 3), (StatusKey.slowed, 2)],
    piercing := false }

/-- The victim of the C5 failing input: an aura-carrying Echo Prime at
5 health, standing inside a hostile Static Field, with no block
active. -/
def lowHpCombatant : Combatant :=
  { player := { echoPrime with hp := 5 }, auraId := some 0 }

/-- The victim's aura entry - pushed into the collection at fighter
construction, so it sits before any later-spawned effect. -/
def victimAura : WorldObj :=
  { obj := { duration := 50, initialDuration := 50, isDestroyed := false,
             hasMesh := true, hasCollider := false, blocksProjectiles := false }
    id := 0, isZone := false, damageTimer := 0, damageInterval := 0,
    pulseDamage := 0, zoneTargets := [] }

/-- A hostile Static Field whose 0.5 s damage pulse is due this tick,
with the victim inside its radius (`game-objects.js` lines 517-545:
interval 0.5, 5 damage per pulse). -/
def hostileStaticField : WorldObj :=
  { obj := { duration := 5, initialDuration := 5, isDestroyed := false,
             hasMesh := true, hasCollider := false, blocksProjectiles := false }
    id := 1, isZone := true, damageTimer := 0, damageInterval := 1/2,
    pulseDamage := 5, zoneTargets := [0] }

/-- A bystander wall sitting after the Static Field in the
collection. -/
def bystanderWall : WorldObj :=
  { obj := liveWallFx, id := 2, isZone := false, damageTimer := 0,
    damageInterval := 0, pulseDamage := 0, zoneTargets := [] }

/-- The C5 failing input: the collection holds the victim's aura, then
the hostile Static Field, then the bystander wall; the victim is at 5
health. -/
def auraSpliceState : SweepState :=
  { objs := [victimAura, hostileStaticField, bystanderWall]
    fighters := [lowHpCombatant] }

/-- C1: `Player.takeDamage` agrees with the specification's reference
`applyDamage` on every fighter state, damage amount and DoT flag: the
defensive layers are checked in the spec's order with the first match
fully blocking (dead target, shield status, block passive with cooldown
reset, one-shot spell shield, one-shot parry that roots the attacker),
a DoT call bypasses every block except the dead check, and proceeding
damage is multiplied sequentially by 1.3 under corruption and 0.7 under
empowerment before being subtracted from health floored at zero. -/
theorem takeDamage_refines_spec (p : Player) (amount : ℚ) (isDoT : Bool) :
    takeDamage p amount isDoT = applyDamageSpec p amount isDoT := by
  have hdmg :
      (if 0 < p.status.empowered then
        (if 0 < p.status.corruption then amount * (13/10) else amount) * (7/10)
       else (if 0 < p.status.corruption then amount * (13/10) else amount))
      = amount * (if 0 < p.status.corruption then (13 : ℚ)/10 else 1)
              * (if 0 < p.status.empowered then (7 : ℚ)/10 else 1) := by
    by_cases hc : 0 < p.status.corruption <;> by_cases he : 0 < p.status.empowered <;>
      simp [hc, he]
  unfold takeDamage applyDamageSpec firstBlockingLayer
  cases isDoT
  · by_cases h1 : p.isDead <;> by_cases h2 : 0 < p.status.shielded <;>
      by_cases h3 : p.passiveName = "Firewall" ∧ p.firewallTimer ≤ 0 <;>
      by_cases h4 : 0 < p.status.spellShield <;> by_cases h5 : 0 < p.status.parry <;>
      simp [h1, h2, h3, h4, h5, hdmg]
  · by_cases h1 : p.isDead <;> simp [h1, hdmg]

/-- Composing two clamped decay steps equals one clamped decay step for
the summed elapsed time. -/
theorem decayNum_comp (a b v : ℚ) (hb : 0 ≤ b) :
    decayNum b (decayNum a v) = decayNum (a + b) v := by
  unfold decayNum
  rcases le_total (v - a) 0 with h | h
  · rw [max_eq_left h, max_eq_left (show 0 - b ≤ 0 by linarith),
      max_eq_left (show v - (a + b) ≤ 0 by linarith)]
  · rw [max_eq_right h]
    congr 1
    ring

/-- C7: status and cooldown decay is time-additive - for nonnegative
elapsed times `a` and `b`, running the per-tick decay pass for `a` and
then for `b` produces exactly the same status-duration and cooldown
values as running it once for `a + b`. -/
theorem decay_time_additive (a b : ℚ) (ha : 0 ≤ a) (hb : 0 ≤ b) (s : Status) (c : Cooldowns) :
    statusNumericDecay b (statusNumericDecay a s) = statusNumericDecay (a + b) s
  ∧ cooldownsDecay b (cooldownsDecay a c) = cooldownsDecay (a + b) c := by
  constructor <;> simp [statusNumericDecay, cooldownsDecay, decayNum_comp _ _ _ hb]

/-- Witness for C7 at the concrete elapsed times 1/3 and 1/2 on the
sample status and cooldown tables. -/
theorem decay_time_additive_witness :
    (0 : ℚ) ≤ 1/3 ∧ (0 : ℚ) ≤ 1/2
  ∧ statusNumericDecay (1/2) (statusNumericDecay (1/3) sampleStatus)
      = statusNumericDecay (1/3 + 1/2) sampleStatus
  ∧ cooldownsDecay (1/2) (cooldownsDecay (1/3) sampleCooldowns)
      = cooldownsDecay (1/3 + 1/2) sampleCooldowns :=
  ⟨by norm_num, by norm_num,
   (decay_time_additive (1/3) (1/2) (by norm_num) (by norm_num) sampleStatus sampleCooldowns).1,
   (decay_time_additive (1/3) (1/2) (by norm_num) (by norm_num) sampleStatus sampleCooldowns).2⟩

/-- C2, counterexample: the claim that stack counters are not
time-decayed, and that every numeric status value is reduced exactly
once and clamped at zero, both fail on the code.  Start with one
gravity mark, its timer at 4, and a pending implosion timer at 0.6; one
tick of 0.5 s leaves the timer active yet reduces the stack count from
1 to 1/2, and drives the implosion timer negative (it is decayed a
second time, unclamped, by the implosion bookkeeping). -/
theorem status_decay_claim_counterexample :
    0 < (statusTickPass (1/2) gravityMarkedStatus).1.gravityMarkTimer
  ∧ (statusTickPass (1/2) gravityMarkedStatus).1.gravityMarks
      ≠ gravityMarkedStatus.gravityMarks
  ∧ (statusTickPass (1/2) gravityMarkedStatus).1.implosionTimer < 0 := by
  norm_num [statusTickPass, statusNumericDecay, statusGravityBookkeeping,
    statusImplosionStep, decayNum, gravityMarkedStatus, zeroStatus]

/-- The clamped decay step never goes negative, and never increases a
nonnegative value when the elapsed time is nonnegative. -/
theorem decayNum_bounds (δ v : ℚ) (hδ : 0 ≤ δ) :
    0 ≤ decayNum δ v ∧ (0 ≤ v → decayNum δ v ≤ v) := by
  constructor
  · exact le_max_left 0 (v - δ)
  · intro hv
    unfold decayNum
    rcases le_total (v - δ) 0 with h | h
    · rw [max_eq_left h]; exact hv
    · rw [max_eq_right h]; linarith

/-- C2, amended: after the per-tick status pass, every numeric status
field - including the gravity-mark stack counter, which the source's
`typeof` loop decays like any other number - is reduced once by the
elapsed time and clamped at zero; the gravity-mark count is
additionally reset to zero when its (decayed) timer has reached zero;
and the implosion timer, while still positive after the clamped decay,
is decremented a second time without clamping by the implosion
bookkeeping, so it alone can come out negative. -/
theorem statusTickPass_characterization (δ : ℚ) (hδ : 0 ≤ δ) (s : Status) :
    ((statusTickPass δ s).1.slowed = decayNum δ s.slowed
      ∧ (statusTickPass δ s).1.rooted = decayNum δ s.rooted
      ∧ (statusTickPass δ s).1.silenced = decayNum δ s.silenced
      ∧ (statusTickPass δ s).1.shielded = decayNum δ s.shielded
      ∧ (statusTickPass δ s).1.spellShield = decayNum δ s.spellShield
      ∧ (statusTickPass δ s).1.unstoppable = decayNum δ s.unstoppable
      ∧ (statusTickPass δ s).1.cloaked = decayNum δ s.cloaked
      ∧ (statusTickPass δ s).1.empowered = decayNum δ s.empowered
      ∧ (statusTickPass δ s).1.venom = decayNum δ s.venom
      ∧ (statusTickPass δ s).1.corruption = decayNum δ s.corruption
      ∧ (statusTickPass δ s).1.feedbackLoop = decayNum δ s.feedbackLoop
      ∧ (statusTickPass δ s).1.isCharging = decayNum δ s.isCharging
      ∧ (statusTickPass δ s).1.riftBuff = decayNum δ s.riftBuff
      ∧ (statusTickPass δ s).1.targetingArray = decayNum δ s.targetingArray
      ∧ (statusTickPass δ s).1.parry = decayNum δ s.parry
      ∧ (statusTickPass δ s).1.siege = decayNum δ s.siege
      ∧ (statusTickPass δ s).1.gravityMarkTimer = decayNum δ s.gravityMarkTimer)
  ∧ (∀ v : ℚ, 0 ≤ decayNum δ v ∧ (0 ≤ v → decayNum δ v ≤ v))
  ∧ ((statusTickPass δ s).1.gravityMarkTimer = 0 → (statusTickPass δ s).1.gravityMarks = 0)
  ∧ (0 < (statusTickPass δ s).1.gravityMarkTimer →
      (statusTickPass δ s).1.gravityMarks = decayNum δ s.gravityMarks)
  ∧ (statusTickPass δ s).1.implosionTimer =
      (if 0 < decayNum δ s.implosionTimer then decayNum δ s.implosionTimer - δ
       else decayNum δ s.implosionTimer) := by
  have hmarks0 : 0 ≤ decayNum δ s.gravityMarks := le_max_left _ _
  refine ⟨?_, fun v => decayNum_bounds δ v hδ, ?_, ?_, ?_⟩
  · by_cases hg : decayNum δ s.gravityMarkTimer ≤ 0 ∧ 0 < decayNum δ s.gravityMarks <;>
      by_cases hi : 0 < decayNum δ s.implosionTimer <;>
      by_cases h2 : decayNum δ s.implosionTimer ≤ δ ∧ s.hasImplosionTarget = true <;>
      simp [statusTickPass, statusNumericDecay, statusGravityBookkeeping,
        statusImplosionStep, hg, hi, h2]
  · by_cases hg : decayNum δ s.gravityMarkTimer ≤ 0 ∧ 0 < decayNum δ s.gravityMarks <;>
      by_cases hi : 0 < decayNum δ s.implosionTimer <;>
      by_cases h2 : decayNum δ s.implosionTimer ≤ δ ∧ s.hasImplosionTarget = true <;>
      simp [statusTickPass, statusNumericDecay, statusGravityBookkeeping,
        statusImplosionStep, hg, hi, h2] <;>
      intro ht <;>
      rcases not_and_or.mp hg with h | h
    · exact absurd (le_of_eq ht) h
    · linarith
    · exact absurd (le_of_eq ht) h
    · linarith
    · exact absurd (le_of_eq ht) h
    · linarith
    · exact absurd (le_of_eq ht) h
    · linarith
  · by_cases hg : decayNum δ s.gravityMarkTimer ≤ 0 ∧ 0 < decayNum δ s.gravityMarks <;>
      by_cases hi : 0 < decayNum δ s.implosionTimer <;>
      by_cases h2 : decayNum δ s.implosionTimer ≤ δ ∧ s.hasImplosionTarget = true <;>
      simp [statusTickPass, statusNumericDecay, statusGravityBookkeeping,
        statusImplosionStep, hg, hi, h2]
  · by_cases hg : decayNum δ s.gravityMarkTimer ≤ 0 ∧ 0 < decayNum δ s.gravityMarks <;>
      by_cases hi : 0 < decayNum δ s.implosionTimer <;>
      by_cases h2 : decayNum δ s.implosionTimer ≤ δ ∧ s.hasImplosionTarget = true <;>
      simp [statusTickPass, statusNumericDecay, statusGravityBookkeeping,
        statusImplosionStep, hg, hi, h2]

/-- Witness for the amended C2 statement at the concrete tick 1/2 on the
sample status table. -/
theorem statusTickPass_characterization_witness :
    (0 : ℚ) ≤ 1/2
  ∧ (statusTickPass (1/2) sampleStatus).1.venom = decayNum (1/2) sampleStatus.venom
  ∧ (0 < (statusTickPass (1/2) sampleStatus).1.gravityMarkTimer →
      (statusTickPass (1/2) sampleStatus).1.gravityMarks
        = decayNum (1/2) sampleStatus.gravityMarks)
  ∧ (statusTickPass (1/2) sampleStatus).1.implosionTimer =
      (if 0 < decayNum (1/2) sampleStatus.implosionTimer then
        decayNum (1/2) sampleStatus.implosionTimer - 1/2
       else decayNum (1/2) sampleStatus.implosionTimer) :=
  ⟨by norm_num,
   (statusTickPass_characterization (1/2) (by norm_num) sampleStatus).1.2.2.2.2.2.2.2.2.1,
   (statusTickPass_characterization (1/2) (by norm_num) sampleStatus).2.2.2.1,
   (statusTickPass_characterization (1/2) (by norm_num) sampleStatus).2.2.2.2⟩

/-- C4: simultaneous death is a draw.  The once-per-tick arbitration of
the simulation loop transitions each fighter with zero health through
`die` and then declares the outcome in one place: a draw exactly when
both fighters are dead, and a winner exactly when one fighter alone is
dead; in particular, when both fighters reach zero health on the same
tick the outcome is a draw, never a single winner.  (`die` itself
returns only a fighter - it cannot declare an outcome.) -/
theorem simultaneous_death_is_draw (s : MatchState) (h : s.gameEnded = false) :
    (s.p1.hp ≤ 0 → s.p2.hp ≤ 0 → (frameDeathCheck s).outcome = some Outcome.draw)
  ∧ ((frameDeathCheck s).outcome = some Outcome.draw ↔
      ((frameDeathCheck s).p1.isDead = true ∧ (frameDeathCheck s).p2.isDead = true))
  ∧ ((frameDeathCheck s).outcome = some Outcome.p2Wins ↔
      ((frameDeathCheck s).p1.isDead = true ∧ (frameDeathCheck s).p2.isDead = false))
  ∧ ((frameDeathCheck s).outcome = some Outcome.p1Wins ↔
      ((frameDeathCheck s).p1.isDead = false ∧ (frameDeathCheck s).p2.isDead = true)) := by
  by_cases hd1 : s.p1.isDead <;> by_cases hd2 : s.p2.isDead <;>
    by_cases hp1 : s.p1.hp ≤ 0 <;> by_cases hp2 : s.p2.hp ≤ 0 <;>
    simp [frameDeathCheck, die, h, hd1, hd2, hp1, hp2]

/-- Witness for C4: both fighters at zero health on the same tick, the
match not yet ended, yields a draw. -/
theorem simultaneous_death_is_draw_witness :
    bothAtZero.gameEnded = false
  ∧ (frameDeathCheck bothAtZero).outcome = some Outcome.draw :=
  ⟨rfl, (simultaneous_death_is_draw bothAtZero rfl).1
    (by norm_num [bothAtZero]) (by norm_num [bothAtZero])⟩

/-- The per-object halves of the destroyed-flag lifecycle, which do
hold of the program: an object marked destroyed is never updated
again - neither by `update` directly nor by any number of further
iterations of the per-entry sweep step - and is never a candidate of a
projectile collision scan; `destroy` on an already-destroyed object
changes nothing (idempotence).  The remaining conjuncts describe the
isolated per-entry pass `processSpecialObjects`, which keeps the
iterated collection's length and compacts only through its final
filter; the program's fighter-death path violates exactly that
no-mid-iteration-removal property - see
`die_splices_aura_mid_iteration`. -/
theorem destroyed_objects_inert (δ : ℚ) (o : SObj) (l : List SObj)
    (h : o.isDestroyed = true) :
    SObj.update δ o = o
  ∧ (∀ n : ℕ, (sweepStep δ)^[n] o = o)
  ∧ SObj.destroy o = o
  ∧ o ∉ collisionScanTargets l
  ∧ (∀ x ∈ collisionScanTargets l, x.isDestroyed = false)
  ∧ (l.map (sweepStep δ)).length = l.length
  ∧ (∀ x ∈ processSpecialObjects δ l, x.isDestroyed = false) := by
  have hstep : sweepStep δ o = o := by simp [sweepStep, h]
  refine ⟨by simp [SObj.update, h], ?_, by simp [SObj.destroy, h], ?_, ?_, ?_, ?_⟩
  · intro n
    induction n with
    | zero => rfl
    | succ k ih => rw [Function.iterate_succ_apply, hstep]; exact ih
  · intro hmem
    have := (List.mem_filter.mp hmem).2
    simp [h] at this
  · intro x hx
    have hxf := (List.mem_filter.mp hx).2
    have hx1 := (Bool.and_eq_true _ _).mp hxf
    simpa using hx1.1
  · exact l.length_map (sweepStep δ)
  · intro x hx
    have := (List.mem_filter.mp hx).2
    simpa using this

/-- `destroyed_objects_inert` evaluated at a concrete input: a
destroyed ring effect, over one tick of 1/60 s, alongside a live wall
in the collection. -/
theorem destroyed_objects_inert_witness :
    deadRingFx.isDestroyed = true
  ∧ SObj.update (1/60) deadRingFx = deadRingFx
  ∧ SObj.destroy deadRingFx = deadRingFx
  ∧ deadRingFx ∉ collisionScanTargets [deadRingFx, liveWallFx] :=
  ⟨rfl,
   (destroyed_objects_inert (1/60) deadRingFx [deadRingFx, liveWallFx] rfl).1,
   (destroyed_objects_inert (1/60) deadRingFx [deadRingFx, liveWallFx] rfl).2.2.1,
   (destroyed_objects_inert (1/60) deadRingFx [deadRingFx, liveWallFx] rfl).2.2.2.1⟩

/-- C5 (code behavior at the failing input): during the special-object
sweep, the Static Field's due damage pulse kills the aura-carrying
fighter at 5 health, and `Player.die` splices the fighter's destroyed
aura straight out of the collection - mid-iteration.  Concretely, over
one 1/60 s tick of the collection `[aura, static field, wall]`: the
loop itself (before any filter pass) shrinks the collection from 3
entries to 2; the removed entry is the dead fighter's aura; the
fighter comes out dead; the wall - positioned after the spliced aura -
is skipped for the tick, its lifespan not ticked down; and the
post-loop filter removes nothing further.  This contradicts the
claimed invariant (and the code's own V-FIX comments) that destroyed
entries leave the live collection only through the filter pass after
the full iteration. -/
theorem die_splices_aura_mid_iteration :
    auraSpliceState.objs.length = 3
  ∧ (sweepLoopAux (1/60) 3 0 auraSpliceState).objs.length = 2
  ∧ ((sweepLoopAux (1/60) 3 0 auraSpliceState).objs.map
      (fun w => w.id)) = [hostileStaticField.id, bystanderWall.id]
  ∧ ((sweepLoopAux (1/60) 3 0 auraSpliceState).fighters.map
      (fun c => c.player.isDead)) = [true]
  ∧ ((sweepLoopAux (1/60) 3 0 auraSpliceState).objs.map
      (fun w => w.obj.duration))
      = [hostileStaticField.obj.duration - 1/60, bystanderWall.obj.duration]
  ∧ (sweepTick (1/60) auraSpliceState).objs.length = 2 := by
  refine ⟨rfl, ?_, ?_, ?_, ?_, ?_⟩ <;>
    norm_num [sweepTick, sweepLoopAux, sweepBody, pulseHitFighter, dieAuraCleanup,
      takeDamage, applyHpLoss, die, SObj.destroy, auraSpliceState, victimAura,
      hostileStaticField, bystanderWall, lowHpCombatant, echoPrime, zeroStatus,
      zeroCooldowns, echoPrimeSkills, liveWallFx, List.eraseP]

/-- The health floor-at-zero step keeps health in `[0, maxHp]` and
leaves energy untouched, for a nonnegative damage amount. -/
theorem applyHpLoss_resource (p : Player) (dmg : ℚ) (d : Bool) (hdmg : 0 ≤ dmg)
    (h1 : 0 ≤ p.hp) (h2 : p.hp ≤ p.maxHp) (h3 : 0 ≤ p.energy)
    (h4 : p.energy ≤ p.maxEnergy) : ResourceInv (applyHpLoss p dmg d).target := by
  have hmaxHp : (0 : ℚ) ≤ p.maxHp := le_trans h1 h2
  by_cases hz : max 0 (p.hp - dmg) ≤ 0 <;> by_cases hd2 : p.isDead = true <;>
    simp only [applyHpLoss, die, hz, hd2, if_true, if_false, ite_true, ite_false] <;>
    first
      | exact ⟨le_refl 0, hmaxHp, h3, h4⟩
      | exact ⟨le_max_left _ _,
          max_le hmaxHp (show p.hp - dmg ≤ p.maxHp by linarith), h3, h4⟩

/-- The damage multiplier chain of `takeDamage` keeps a nonnegative
amount nonnegative. -/
theorem takeDamage_dmg_nonneg (p : Player) (a : ℚ) (ha : 0 ≤ a) :
    0 ≤ (if 0 < p.status.empowered then
          (if 0 < p.status.corruption then a * (13/10) else a) * (7/10)
         else (if 0 < p.status.corruption then a * (13/10) else a)) := by
  split_ifs <;> nlinarith

/-- In every branch of `takeDamage`, health stays in `[0, maxHp]` and
energy is untouched, for a nonnegative damage amount. -/
theorem takeDamage_resource (p : Player) (a : ℚ) (d : Bool) (ha : 0 ≤ a)
    (h : ResourceInv p) : ResourceInv (takeDamage p a d).target := by
  obtain ⟨h1, h2, h3, h4⟩ := h
  unfold takeDamage
  by_cases g1 : p.isDead = true
  · rw [if_pos g1]; exact ⟨h1, h2, h3, h4⟩
  rw [if_neg g1]
  by_cases g2 : 0 < p.status.shielded ∧ d = false
  · rw [if_pos g2]; exact ⟨h1, h2, h3, h4⟩
  rw [if_neg g2]
  by_cases g3 : p.passiveName = "Firewall" ∧ p.firewallTimer ≤ 0 ∧ d = false
  · rw [if_pos g3]; exact ⟨h1, h2, h3, h4⟩
  rw [if_neg g3]
  by_cases g4 : 0 < p.status.spellShield ∧ d = false
  · rw [if_pos g4]; exact ⟨h1, h2, h3, h4⟩
  rw [if_neg g4]
  by_cases g5 : 0 < p.status.parry ∧ d = false
  · rw [if_pos g5]; exact ⟨h1, h2, h3, h4⟩
  rw [if_neg g5]
  exact applyHpLoss_resource p _ d (takeDamage_dmg_nonneg p a ha) h1 h2 h3 h4

/-- Each fighter operation preserves the resource invariant. -/
theorem applyOp_resource (p : Player) (op : FighterOp) (hop : opOk op)
    (h : ResourceInv p) : ResourceInv (applyOp p op) := by
  obtain ⟨h1, h2, h3, h4⟩ := h
  have hmaxHp : (0 : ℚ) ≤ p.maxHp := le_trans h1 h2
  have hmaxE : (0 : ℚ) ≤ p.maxEnergy := le_trans h3 h4
  cases op with
  | damage a d => exact takeDamage_resource p a d hop ⟨h1, h2, h3, h4⟩
  | fortressHeal =>
      exact ⟨le_min hmaxHp (by linarith), min_le_left _ _, h3, h4⟩
  | salvationHeal =>
      simp only [applyOp]
      split_ifs
      · exact ⟨le_min hmaxHp (by linarith), min_le_left _ _, h3, h4⟩
      · exact ⟨h1, h2, h3, h4⟩
  | energyRegen rate δ =>
      obtain ⟨hr, hd⟩ := hop
      exact ⟨h1, h2, le_min hmaxE (by nlinarith), min_le_left _ _⟩
  | manaBurnDrain =>
      exact ⟨h1, h2, le_max_left _ _,
        max_le hmaxE (show p.energy - 5 ≤ p.maxEnergy by linarith)⟩
  | systemCrashDrain => exact ⟨h1, h2, le_refl 0, hmaxE⟩
  | energyVoidDrain =>
      exact ⟨h1, h2, show 0 ≤ p.energy - p.energy * (3/5) by linarith,
        show p.energy - p.energy * (3/5) ≤ p.maxEnergy by linarith⟩
  | energyVoidGain drain =>
      have hdrain : 0 ≤ drain := hop
      exact ⟨h1, h2, le_min hmaxE (by linarith), min_le_left _ _⟩
  | overchargeRestore =>
      exact ⟨h1, h2, le_min hmaxE (by linarith), min_le_left _ _⟩
  | skillCost cost =>
      simp only [applyOp]
      split_ifs with hc
      · exact ⟨h1, h2, h3, h4⟩
      · push_neg at hc
        have hcost : 0 ≤ cost := hop
        exact ⟨h1, h2, show 0 ≤ p.energy - cost by linarith,
          show p.energy - cost ≤ p.maxEnergy by linarith⟩

/-- C6: after any sequence of damage, DoT, healing, energy
regeneration, energy drain and skill-cost operations - each with the
nonnegative amounts the source always supplies - a fighter that starts
with health in `[0, maxHealth]` and energy in `[0, maxEnergy]` still
has health in `[0, maxHealth]` and energy in `[0, maxEnergy]`. -/
theorem resource_invariant_preserved (ops : List FighterOp) :
    ∀ (p : Player), (∀ op ∈ ops, opOk op) → ResourceInv p →
      ResourceInv (ops.foldl applyOp p) := by
  induction ops with
  | nil => intro p _ h; exact h
  | cons op rest ih =>
      intro p hops h
      exact ih (applyOp p op) (fun o ho => hops o (List.mem_cons_of_mem _ ho))
        (applyOp_resource p op (hops op (List.mem_cons_self _ _)) h)

/-- Witness for C6: the sample operation sequence applied to a fresh
Echo Prime keeps both resources in range. -/
theorem resource_invariant_preserved_witness :
    (∀ op ∈ sampleOps, opOk op)
  ∧ ResourceInv echoPrime
  ∧ ResourceInv (sampleOps.foldl applyOp echoPrime) := by
  have hops : ∀ op ∈ sampleOps, opOk op := by
    intro op hop
    fin_cases hop <;> norm_num [opOk]
  have hinv : ResourceInv echoPrime := by norm_num [ResourceInv, echoPrime]
  exact ⟨hops, hinv, resource_invariant_preserved sampleOps echoPrime hops hinv⟩

/-- C8: every invalid skill invocation is a silent no-op.  Whether the
fighter is dead, the skill is on cooldown (including the JS
`undefined > 0` comparison an unknown key produces), the fighter is
silenced, the key resolves to no skill, or the energy cost is not
covered - `useSkill` returns with the fighter unchanged, the opponent
unchanged and no spawned effects, and (being a total function) raises
nothing. -/
theorem useSkill_invalid_noop (p : Player) (opp : Option Player) (k : String)
    (h : p.isDead = true ∨ jsNumGtZero (p.cooldowns.lookup k) = true
       ∨ 0 < p.status.silenced ∨ skillRequested p k = none
       ∨ ∃ sk, skillRequested p k = some sk ∧ p.energy < sk.cost) :
    useSkill p opp k = ⟨p, opp, []⟩ := by
  unfold useSkill
  by_cases hg : p.isDead = true ∨ jsNumGtZero (p.cooldowns.lookup k) = true
      ∨ 0 < p.status.silenced
  · rw [if_pos hg]
  · rw [if_neg hg]
    rcases h with h | h | h | h | ⟨sk, hsk, hcost⟩
    · exact absurd (Or.inl h) hg
    · exact absurd (Or.inr (Or.inl h)) hg
    · exact absurd (Or.inr (Or.inr h)) hg
    · rw [h]
    · rw [hsk]
      simp [hcost]

/-- Witness for C8: a silenced Echo Prime probing Power Shot gets a
silent no-op. -/
theorem useSkill_invalid_noop_witness :
    0 < silencedEcho.status.silenced
  ∧ useSkill silencedEcho none "s1" = ⟨silencedEcho, none, []⟩ :=
  ⟨by norm_num [silencedEcho, zeroStatus],
   useSkill_invalid_noop silencedEcho none "s1"
     (Or.inr (Or.inr (Or.inl (by norm_num [silencedEcho, zeroStatus]))))⟩

/-- C9: a dead fighter never executes a stale reflex dodge.  The
delayed dodge callback scheduled before death, on firing, leaves the
dead fighter's entire state - velocity and aim direction included -
unchanged, invokes no skill and spawns nothing. -/
theorem dead_fighter_dodge_noop (ai : Player) (opp : Option Player) (path : ℚ × ℚ)
    (h : ai.isDead = true) :
    reflexDodgeCallback ai opp path = ⟨ai, opp, [], []⟩
  ∧ (reflexDodgeCallback ai opp path).self.velocity = ai.velocity
  ∧ (reflexDodgeCallback ai opp path).self.aimDirection = ai.aimDirection
  ∧ (reflexDodgeCallback ai opp path).skillCalls = [] := by
  have he : reflexDodgeCallback ai opp path = ⟨ai, opp, [], []⟩ := by
    unfold reflexDodgeCallback
    rw [if_pos h]
  exact ⟨he, by rw [he], by rw [he], by rw [he]⟩

/-- Witness for C9: a dead Echo Prime's scheduled dodge along the south
escape path is a no-op. -/
theorem dead_fighter_dodge_noop_witness :
    deadEcho.isDead = true
  ∧ reflexDodgeCallback deadEcho none (0, 1) = ⟨deadEcho, none, [], []⟩ :=
  ⟨rfl, (dead_fighter_dodge_noop deadEcho none (0, 1) rfl).1⟩

/-- A blocked non-DoT `takeDamage` call leaves health and every
projectile-effect status key unchanged. -/
theorem takeDamage_blocked (p : Player) (amount : ℚ) (halive : p.isDead = false)
    (hblock : 0 < p.status.shielded
            ∨ (p.passiveName = "Firewall" ∧ p.firewallTimer ≤ 0)
            ∨ 0 < p.status.spellShield ∨ 0 < p.status.parry) :
    (takeDamage p amount false).target.hp = p.hp
  ∧ ∀ k : StatusKey, StatusKey.get (takeDamage p amount false).target.status k
      = StatusKey.get p.status k := by
  have hdead : ¬(p.isDead = true) := by simp [halive]
  unfold takeDamage
  rw [if_neg hdead]
  by_cases h2 : 0 < p.status.shielded ∧ false = false
  · rw [if_pos h2]; exact ⟨rfl, fun k => rfl⟩
  rw [if_neg h2]
  by_cases h3 : p.passiveName = "Firewall" ∧ p.firewallTimer ≤ 0 ∧ false = false
  · rw [if_pos h3]; exact ⟨rfl, fun k => rfl⟩
  rw [if_neg h3]
  by_cases h4 : 0 < p.status.spellShield ∧ false = false
  · rw [if_pos h4]
    refine ⟨rfl, fun k => ?_⟩
    cases k <;> rfl
  rw [if_neg h4]
  by_cases h5 : 0 < p.status.parry ∧ false = false
  · rw [if_pos h5]
    refine ⟨rfl, fun k => ?_⟩
    cases k <;> rfl
  rw [if_neg h5]
  exfalso
  rcases hblock with h | h | h | h
  · exact h2 ⟨h, rfl⟩
  · exact h3 ⟨h.1, h.2, rfl⟩
  · exact h4 ⟨h, rfl⟩
  · exact h5 ⟨h, rfl⟩

/-- One on-hit effect adds its value to its own key and nothing to the
others. -/
theorem applyEffect_get (s : Status) (e : StatusKey × ℚ) (k : StatusKey) :
    StatusKey.get (applyEffect s e) k
      = StatusKey.get s k + (if e.1 = k then e.2 else 0) := by
  obtain ⟨ek, v⟩ := e
  cases ek <;> cases k <;> simp [applyEffect, StatusKey.get]

/-- The fold of on-hit effects adds, per status key, exactly the sum of
the values carried for that key. -/
theorem applyEffects_get (es : List (StatusKey × ℚ)) (s : Status) (k : StatusKey) :
    StatusKey.get (applyEffects s es) k = StatusKey.get s k + effectSum k es := by
  induction es generalizing s with
  | nil => simp [applyEffects, effectSum]
  | cons e rest ih =>
      have h1 : applyEffects s (e :: rest) = applyEffects (applyEffect s e) rest := rfl
      have h2 : effectSum k (e :: rest) = (if e.1 = k then e.2 else 0) + effectSum k rest := by
        by_cases he : e.1 = k <;> simp [effectSum, List.filter_cons, he]
      rw [h1, ih, applyEffect_get, h2]
      ring

/-- C10: a projectile's on-hit status effects land even when the damage
is fully blocked.  For a live target with any defensive layer active
(shield status, ready block passive, spell shield, or parry), the
collision branch leaves health exactly unchanged, while every status
key carried by the projectile's effect table is increased by the
carried amount - the block suppresses only the health reduction inside
`takeDamage`, and the effect application after the damage call is
unconditional. -/
theorem projectile_effects_applied_despite_block (proj : ProjectileM) (target : Player)
    (halive : target.isDead = false)
    (hblock : 0 < target.status.shielded
            ∨ (target.passiveName = "Firewall" ∧ target.firewallTimer ≤ 0)
            ∨ 0 < target.status.spellShield ∨ 0 < target.status.parry) :
    (projectileHitPlayer proj target).hp = target.hp
  ∧ ∀ k : StatusKey, StatusKey.get (projectileHitPlayer proj target).status k
      = StatusKey.get target.status k + effectSum k (proj.effects.getD []) := by
  obtain ⟨hhp, hst⟩ := takeDamage_blocked target proj.damage halive hblock
  unfold projectileHitPlayer
  rcases hfx : proj.effects with _ | es
  · refine ⟨hhp, fun k => ?_⟩
    simp [effectSum, hst k]
  · refine ⟨hhp, fun k => ?_⟩
    show StatusKey.get
      (applyEffects (takeDamage target proj.damage false).target.status es) k = _
    rw [applyEffects_get, hst k]
    simp

/-- Witness for C10: a venom-and-slow projectile hitting a shielded,
live Echo Prime leaves health unchanged and adds 3 venom. -/
theorem projectile_effects_applied_despite_block_witness :
    shieldedEcho.isDead = false
  ∧ 0 < shieldedEcho.status.shielded
  ∧ (projectileHitPlayer venomSlowProjectile shieldedEcho).hp = shieldedEcho.hp
  ∧ StatusKey.get (projectileHitPlayer venomSlowProjectile shieldedEcho).status
      StatusKey.venom
    = StatusKey.get shieldedEcho.status StatusKey.venom
      + effectSum StatusKey.venom (venomSlowProjectile.effects.getD []) :=
  ⟨rfl, by norm_num [shieldedEcho, zeroStatus],
   (projectile_effects_applied_despite_block venomSlowProjectile shieldedEcho rfl
     (Or.inl (by norm_num [shieldedEcho, zeroStatus]))).1,
   (projectile_effects_applied_despite_block venomSlowProjectile shieldedEcho rfl
     (Or.inl (by norm_num [shieldedEcho, zeroStatus]))).2 StatusKey.venom⟩

/-- C3 (code behavior at the failing input): when the line of sight is
blocked, the tactical brain issues zero offensive skill calls and sets
the strategy to reposition - but because `aiState.repositionTarget` is
never initialized anywhere, the next statement reads `.copy` of
`undefined` and throws a `TypeError`: no flank point is ever stored
(the target stays `undefined`), and the movement module's `REPOSITION`
case, reading the same property, would throw as well - the AI never
moves toward a flank point. -/
theorem blocked_los_decision_throws (ai opp : Player) (st : AiState) (config : AiConfig)
    (anal : Analysis) (hb : anal.isPathBlocked = true)
    (hrt : st.repositionTarget = none) :
    (runTacticalBrain ai opp st config anal).skillCalls = []
  ∧ (runTacticalBrain ai opp st config anal).spawns = []
  ∧ (runTacticalBrain ai opp st config anal).aiState.strategy = Strategy.REPOSITION
  ∧ (runTacticalBrain ai opp st config anal).aiState.repositionTarget = none
  ∧ (runTacticalBrain ai opp st config anal).thrown
      = some (JsError.typeError "Cannot read properties of undefined (reading copy)")
  ∧ executeMovementRepositionMove ai (runTacticalBrain ai opp st config anal).aiState
      = Except.error (JsError.typeError "Cannot read properties of undefined (reading x)") := by
  have hres : runTacticalBrain ai opp st config anal
      = ⟨ai, some opp, { st with strategy := Strategy.REPOSITION }, [], [],
          some (JsError.typeError "Cannot read properties of undefined (reading copy)")⟩ := by
    unfold runTacticalBrain
    rw [if_pos hb]
    simp [hrt]
  rw [hres]
  exact ⟨rfl, rfl, rfl, hrt, rfl, by simp [executeMovementRepositionMove, hrt]⟩

/-- Witness for C3: a fresh Echo Prime AI (its `aiState` exactly as the
constructor builds it) whose first tactical decision sees the line of
sight blocked: no skill call, and a thrown `TypeError`. -/
theorem blocked_los_decision_throws_witness :
    blockedAnalysis.isPathBlocked = true
  ∧ initialAiState.repositionTarget = none
  ∧ (runTacticalBrain echoPrime echoPrime initialAiState devilTier
      blockedAnalysis).skillCalls = []
  ∧ (runTacticalBrain echoPrime echoPrime initialAiState devilTier
      blockedAnalysis).thrown
      = some (JsError.typeError "Cannot read properties of undefined (reading copy)") :=
  ⟨rfl, rfl,
   (blocked_los_decision_throws echoPrime echoPrime initialAiState devilTier
     blockedAnalysis rfl rfl).1,
   (blocked_los_decision_throws echoPrime echoPrime initialAiState devilTier
     blockedAnalysis rfl rfl).2.2.2.2.1⟩

end PvPArena
